import Mathlib

/-!
Verification development for the webhook event pipeline (`app.py`).

The source is a small Flask application with three routes:

* `format_event`   (app.py lines 25-62): renders a stored event document as a
  human-readable string, catching `ValueError` and `KeyError`;
* `github_webhook` (app.py lines 66-125): normalizes an inbound GitHub payload
  (`push` / `pull_request`) into a canonical record and stores it behind a
  find-then-insert deduplication gate;
* `get_events`     (app.py lines 127-136): returns the 10 most recent stored
  records, sorted by the `timestamp` field descending, each formatted by
  `format_event`.

The embedding below models JSON-ish Python values (`PyVal`), Python exceptions
that the source can raise (`PyErr`), the store as a list of records, and the
relevant pieces of the Python standard library that the source calls
(`str.replace`, `str.split`, `datetime.fromisoformat`, `strftime`).
-/

/-- A JSON-like Python value, as delivered by `request.json` and as stored in
the Mongo collection.  Dictionaries are association lists with string keys
(JSON object keys are strings); the first binding of a key wins, matching
Python dictionaries, which cannot hold a key twice. -/
inductive PyVal where
  | none : PyVal
  | bool : Bool → PyVal
  | int : Int → PyVal
  | str : String → PyVal
  | list : List PyVal → PyVal
  | dict : List (String × PyVal) → PyVal

mutual

/-- Structural equality test on `PyVal` (used to derive decidable equality,
which the nested inductive does not get automatically). -/
def pyvalBEq : PyVal → PyVal → Bool
  | .none, .none => true
  | .bool a, .bool b => a == b
  | .int a, .int b => a == b
  | .str a, .str b => a == b
  | .list a, .list b => pyvalListBEq a b
  | .dict a, .dict b => pyvalDictBEq a b
  | _, _ => false

/-- Elementwise `pyvalBEq` on lists. -/
def pyvalListBEq : List PyVal → List PyVal → Bool
  | [], [] => true
  | a :: as, b :: bs => pyvalBEq a b && pyvalListBEq as bs
  | _, _ => false

/-- Entrywise `pyvalBEq` on association lists. -/
def pyvalDictBEq : List (String × PyVal) → List (String × PyVal) → Bool
  | [], [] => true
  | (k, v) :: as, (k2, v2) :: bs => k == k2 && pyvalBEq v v2 && pyvalDictBEq as bs
  | _, _ => false

end

mutual

theorem pyvalBEq_iff : ∀ a b : PyVal, pyvalBEq a b = true ↔ a = b
  | .none, .none => by simp [pyvalBEq]
  | .bool a, .bool b => by simp [pyvalBEq]
  | .int a, .int b => by simp [pyvalBEq]
  | .str a, .str b => by simp [pyvalBEq]
  | .list a, .list b => by
    simpa [pyvalBEq] using pyvalListBEq_iff a b
  | .dict a, .dict b => by
    simpa [pyvalBEq] using pyvalDictBEq_iff a b
  | .none, .bool _ | .none, .int _ | .none, .str _ | .none, .list _ | .none, .dict _
  | .bool _, .none | .bool _, .int _ | .bool _, .str _ | .bool _, .list _ | .bool _, .dict _
  | .int _, .none | .int _, .bool _ | .int _, .str _ | .int _, .list _ | .int _, .dict _
  | .str _, .none | .str _, .bool _ | .str _, .int _ | .str _, .list _ | .str _, .dict _
  | .list _, .none | .list _, .bool _ | .list _, .int _ | .list _, .str _ | .list _, .dict _
  | .dict _, .none | .dict _, .bool _ | .dict _, .int _ | .dict _, .str _
  | .dict _, .list _ => by simp [pyvalBEq]

theorem pyvalListBEq_iff : ∀ a b : List PyVal, pyvalListBEq a b = true ↔ a = b
  | [], [] => by simp [pyvalListBEq]
  | [], _ :: _ => by simp [pyvalListBEq]
  | _ :: _, [] => by simp [pyvalListBEq]
  | a :: as, b :: bs => by
    simp [pyvalListBEq, pyvalBEq_iff a b, pyvalListBEq_iff as bs]

theorem pyvalDictBEq_iff :
    ∀ a b : List (String × PyVal), pyvalDictBEq a b = true ↔ a = b
  | [], [] => by simp [pyvalDictBEq]
  | [], _ :: _ => by simp [pyvalDictBEq]
  | _ :: _, [] => by simp [pyvalDictBEq]
  | (k, v) :: as, (k2, v2) :: bs => by
    simp [pyvalDictBEq, pyvalBEq_iff v v2, pyvalDictBEq_iff as bs, and_assoc,
      Prod.ext_iff]

end

instance : DecidableEq PyVal := fun a b =>
  decidable_of_iff (pyvalBEq a b = true) (pyvalBEq_iff a b)

/-- The Python exception classes that the source code can raise:
`KeyError` from `d[k]` on a dict missing `k`; `ValueError` from
`datetime.fromisoformat` on an unparsable string; `AttributeError` from a
method access (`.replace`, `.get`, `.split`) on a value that lacks it;
`TypeError` from subscripting a non-subscriptable value. -/
inductive PyErr where
  | keyError : String → PyErr
  | valueError : String → PyErr
  | attributeError : String → PyErr
  | typeError : String → PyErr
deriving DecidableEq, Repr

/-- A stored event document: a Python dict with string keys. -/
abbrev Record := List (String × PyVal)

/-- The events collection, in insertion order (Mongo natural order for this
append-only workload). -/
abbrev Store := List Record

/-- Python truthiness (`bool(v)`): `None`, `False`, `0`, `""`, `[]`, `{}` are
falsy, everything else truthy. -/
def PyVal.truthy : PyVal → Bool
  | .none => false
  | .bool b => b
  | .int n => n != 0
  | .str s => s != ""
  | .list l => !l.isEmpty
  | .dict d => !d.isEmpty

/-- `v[k]` on a Python value: a dict lookup raising `KeyError` when the key is
missing, `TypeError` when `v` is not subscriptable by a string. -/
def PyVal.subscript (v : PyVal) (k : String) : Except PyErr PyVal :=
  match v with
  | .dict d =>
    match d.lookup k with
    | some w => .ok w
    | Option.none => .error (.keyError k)
  | _ => .error (.typeError "object is not subscriptable")

/-- `v.get(k, default)` on a Python value: defined on dicts, `AttributeError`
otherwise (e.g. `None.get(...)`). -/
def PyVal.get (v : PyVal) (k : String) (dflt : PyVal) : Except PyErr PyVal :=
  match v with
  | .dict d => .ok ((d.lookup k).getD dflt)
  | _ => .error (.attributeError "get")

/-- `doc[k]` on a record (a dict we statically know). -/
def recordItem (r : Record) (k : String) : Except PyErr PyVal :=
  match r.lookup k with
  | some w => .ok w
  | Option.none => .error (.keyError k)

/-- Depth-one rendering used for values nested inside a container.  The
normalizer only ever stores scalar fields, so no specification claim observes
the rendering of a container nested inside another container; nested
containers are abbreviated. -/
def pyScalarRepr : PyVal → String
  | .none => "None"
  | .bool true => "True"
  | .bool false => "False"
  | .int n => toString n
  | .str s => "\x27" ++ s ++ "\x27"
  | .list _ => "[...]"
  | .dict _ => "\x7b...\x7d"

/-- Python `str(v)`, as used by f-string interpolation and by
`str(pr_data[...])`: identity on strings, `repr`-style rendering otherwise. -/
def pyStr : PyVal → String
  | .str s => s
  | .list l => "[" ++ String.intercalate ", " (l.map pyScalarRepr) ++ "]"
  | .dict d =>
    "\x7b" ++
      String.intercalate ", "
        (d.map fun p => "\x27" ++ p.1 ++ "\x27: " ++ pyScalarRepr p.2) ++
    "\x7d"
  | v => pyScalarRepr v

/-- Python `v == "lit"` for a string literal on the right: true exactly when
`v` is the same string.  No other `PyVal` compares equal to a `str` under
Python `==` (numbers and booleans never equal strings, and no `__eq__`
override is in play). -/
def pyEqStr (v : PyVal) (s : String) : Bool :=
  match v with
  | .str t => t = s
  | _ => false

/-- `s.replace(p, rep)` for a one-character pattern `p`, the only use in the
source (`raw_timestamp.replace('Z', '+00:00')`).  For a single-character
pattern, Python's left-to-right non-overlapping replacement is exactly
per-character substitution. -/
def pyReplaceChar (p : Char) (rep : List Char) : List Char → List Char
  | [] => []
  | c :: cs => (if c = p then rep else [c]) ++ pyReplaceChar p rep cs

/-- `s.replace(p, rep)` at the `String` level (one-character pattern). -/
def pyReplace (s : String) (p : Char) (rep : String) : String :=
  ⟨pyReplaceChar p rep.data s.data⟩

/-- `s.split(sep)` for a one-character separator, the only use in the source
(`data['ref'].split('/')`).  Python returns `['']` on the empty string and
keeps empty segments. -/
def pySplitChar (sep : Char) : List Char → List (List Char)
  | [] => [[]]
  | c :: cs =>
    let r := pySplitChar sep cs
    if c = sep then [] :: r
    else
      match r with
      | h :: t => (c :: h) :: t
      | [] => [[c]]

/-- `s.split(sep)[-1]`: the final segment of a one-character-separator split
(the split result is never empty, so Python's `[-1]` cannot fail). -/
def pySplitLast (s : String) (sep : Char) : String :=
  ⟨(pySplitChar sep s.data).getLastD []⟩

/-- `needle` occurs as a contiguous substring of `haystack` (over the
character lists). -/
def containsAux (t : List Char) : List Char → Bool
  | [] => t.isPrefixOf ([] : List Char)
  | c :: cs => t.isPrefixOf (c :: cs) || containsAux t cs

/-- String containment test used to state the "formatted output contains ..."
specification scenarios. -/
def strContains (s t : String) : Bool :=
  containsAux t.data s.data

/-! ### `datetime.fromisoformat` and `strftime`

The source calls `datetime.fromisoformat` on the timestamp (after replacing
`'Z'` with `'+00:00'` — the comment in the source explains the replacement is
there precisely because `fromisoformat` does not accept a trailing `Z`), and
renders the result with `strftime("%d %B %Y - %I:%M %p UTC")`.

`fromisoformat` is modelled on the CPython (pre-3.11) grammar:
`YYYY-MM-DD[<sep>HH[:MM[:SS[.fff[fff]]]][(+|-)HH:MM[:SS[.ffffff]]]]` where
`<sep>` is any single character.  Numeric components are modelled as fixed
runs of digits.  A failed parse means `ValueError`.  The parsed value keeps
the wall-clock fields and the UTC offset; `fromisoformat` performs no
conversion between the wall clock and the offset. -/

/-- A parsed `datetime`: wall-clock fields and an optional fixed UTC offset in
microseconds (`Option.none` for a naive datetime). -/
structure PyDatetime where
  year : Nat
  month : Nat
  day : Nat
  hour : Nat
  minute : Nat
  second : Nat
  microsecond : Nat
  tzOffsetMicros : Option Int
deriving DecidableEq, Repr

/-- Numeric value of a run of decimal digits. -/
def digitsToNat (l : List Char) : Nat :=
  l.foldl (fun a c => 10 * a + (c.toNat - 48)) 0

/-- Parse exactly two leading decimal digits, returning the value and the
rest (CPython `_parse_hh_mm_ss_ff` reads components as `int(tstr[pos:pos+2])`). -/
def parse2 : List Char → Option (Nat × List Char)
  | a :: b :: rest =>
    if a.isDigit && b.isDigit then some ((a.toNat - 48) * 10 + (b.toNat - 48), rest)
    else Option.none
  | _ => Option.none

/-- CPython `_parse_hh_mm_ss_ff`: parse `HH[:MM[:SS[.fff[fff]]]]`, the
fraction having exactly 3 or 6 digits (3 digits are scaled to microseconds). -/
def parseHMSF (t : List Char) : Option (Nat × Nat × Nat × Nat) :=
  match parse2 t with
  | Option.none => Option.none
  | some (h, r1) =>
    match r1 with
    | [] => some (h, 0, 0, 0)
    | ':' :: r2 =>
      match parse2 r2 with
      | Option.none => Option.none
      | some (m, r3) =>
        match r3 with
        | [] => some (h, m, 0, 0)
        | ':' :: r4 =>
          match parse2 r4 with
          | Option.none => Option.none
          | some (s, r5) =>
            match r5 with
            | [] => some (h, m, s, 0)
            | '.' :: r6 =>
              if r6.length = 3 && r6.all Char.isDigit then
                some (h, m, s, digitsToNat r6 * 1000)
              else if r6.length = 6 && r6.all Char.isDigit then
                some (h, m, s, digitsToNat r6)
              else Option.none
            | _ => Option.none
        | _ => Option.none
    | _ => Option.none

/-- CPython `_parse_isoformat_time`: split off the timezone part at the first
`'-'` (else the first `'+'`), parse the clock part with `parseHMSF`, and
require the timezone string to have length 5, 8 or 15 (`HH:MM`, `HH:MM:SS`,
`HH:MM:SS.ffffff`).  An all-zero offset is `timezone.utc` regardless of sign;
otherwise `timezone(sign * delta)` requires the offset to be strictly between
-24 and +24 hours. -/
def parseIsoTime (t : List Char) : Option (Nat × Nat × Nat × Nat × Option Int) :=
  if t.length < 2 then Option.none
  else
    let tzSplit : Option (Nat × Int) :=
      match t.findIdx? (· = '-') with
      | some i => some (i, -1)
      | Option.none =>
        match t.findIdx? (· = '+') with
        | some j => some (j, 1)
        | Option.none => Option.none
    match tzSplit with
    | Option.none =>
      match parseHMSF t with
      | Option.none => Option.none
      | some (h, m, s, f) => some (h, m, s, f, Option.none)
    | some (i, sign) =>
      match parseHMSF (t.take i) with
      | Option.none => Option.none
      | some (h, m, s, f) =>
        let tzstr := t.drop (i + 1)
        if tzstr.length = 5 || tzstr.length = 8 || tzstr.length = 15 then
          match parseHMSF tzstr with
          | Option.none => Option.none
          | some (th, tm, ts, tf) =>
            if th = 0 && tm = 0 && ts = 0 && tf = 0 then
              some (h, m, s, f, some 0)
            else
              let off : Int :=
                sign * (((th * 3600 + tm * 60 + ts) * 1000000 + tf : Nat) : Int)
              if -(86400000000 : Int) < off ∧ off < 86400000000 then
                some (h, m, s, f, some off)
              else Option.none
        else Option.none

/-- CPython `_parse_isoformat_date`: exactly `YYYY-MM-DD` with decimal digit
runs. -/
def parseIsoDate (d : List Char) : Option (Nat × Nat × Nat) :=
  match d with
  | [y1, y2, y3, y4, s1, m1, m2, s2, d1, d2] =>
    if [y1, y2, y3, y4].all Char.isDigit && s1 = '-' && [m1, m2].all Char.isDigit
        && s2 = '-' && [d1, d2].all Char.isDigit then
      some (digitsToNat [y1, y2, y3, y4], digitsToNat [m1, m2], digitsToNat [d1, d2])
    else Option.none
  | _ => Option.none

/-- Gregorian leap-year test (as in Python's `calendar.isleap` /
`datetime`). -/
def isLeap (y : Nat) : Bool :=
  y % 4 = 0 && (y % 100 != 0 || y % 400 = 0)

/-- Days in a month of a given year. -/
def daysInMonth (y m : Nat) : Nat :=
  if m = 2 then (if isLeap y then 29 else 28)
  else if m = 4 || m = 6 || m = 9 || m = 11 then 30
  else 31

/-- `datetime.fromisoformat`: the first 10 characters are the date, character
10 (when present) is an arbitrary separator, the rest is the time.  The
`datetime` constructor then validates the ranges of every component
(`MINYEAR = 1`, `MAXYEAR = 9999`).  `Option.none` models `ValueError`. -/
def fromisoformat (s : String) : Option PyDatetime :=
  let l := s.data
  match parseIsoDate (l.take 10) with
  | Option.none => Option.none
  | some (y, mo, d) =>
    let tstr := l.drop 11
    let time :=
      if tstr.isEmpty then some (0, 0, 0, 0, (Option.none : Option Int))
      else parseIsoTime tstr
    match time with
    | Option.none => Option.none
    | some (h, mi, se, us, tz) =>
      if 1 ≤ y && y ≤ 9999 && 1 ≤ mo && mo ≤ 12 && 1 ≤ d && d ≤ daysInMonth y mo
          && h ≤ 23 && mi ≤ 59 && se ≤ 59 && us ≤ 999999 then
        some ⟨y, mo, d, h, mi, se, us, tz⟩
      else Option.none

/-- Zero-pad a number to two digits (`%d`, `%I`, `%M`). -/
def pad2 (n : Nat) : String :=
  if n < 10 then "0" ++ toString n else toString n

/-- Zero-pad a year to four digits (`%Y` as documented for `datetime`). -/
def pad4 (n : Nat) : String :=
  if n < 10 then "000" ++ toString n
  else if n < 100 then "00" ++ toString n
  else if n < 1000 then "0" ++ toString n
  else toString n

/-- `%B`: full month name. -/
def monthName : Nat → String
  | 1 => "January"
  | 2 => "February"
  | 3 => "March"
  | 4 => "April"
  | 5 => "May"
  | 6 => "June"
  | 7 => "July"
  | 8 => "August"
  | 9 => "September"
  | 10 => "October"
  | 11 => "November"
  | 12 => "December"
  | _ => ""

/-- `%I`: hour on a 12-hour clock. -/
def hour12 (h : Nat) : Nat :=
  if h % 12 = 0 then 12 else h % 12

/-- `%p`: AM/PM marker. -/
def ampm (h : Nat) : String :=
  if h < 12 then "AM" else "PM"

/-- `parsed_time.strftime("%d %B %Y - %I:%M %p UTC")`: renders the wall-clock
fields of the datetime; the `"UTC"` is a literal in the format string and the
UTC offset of the datetime plays no part. -/
def strftimeDisplay (dt : PyDatetime) : String :=
  pad2 dt.day ++ " " ++ monthName dt.month ++ " " ++ pad4 dt.year ++ " - " ++
    pad2 (hour12 dt.hour) ++ ":" ++ pad2 dt.minute ++ " " ++ ampm dt.hour ++ " UTC"

/-! ### `format_event` (app.py lines 25-62) -/

/-- The fallback string built in the `except (ValueError, KeyError)` handler:
`f"Could not display event due to a data error: \x7bevent_data.get('request_id', 'Unknown ID')\x7d"`. -/
def dataErrorString (event_data : Record) : String :=
  "Could not display event due to a data error: " ++
    pyStr ((event_data.lookup "request_id").getD (.str "Unknown ID"))

/-- The four-way `action` dispatch at the end of the `try` block of
`format_event` (lines 50-57), given the already-formatted timestamp string. -/
def renderAction (author action from_branch to_branch : PyVal)
    (timestamp : String) : String :=
  if pyEqStr action "PUSH" then
    pyStr author ++ " pushed to " ++ pyStr to_branch ++ " on " ++ timestamp
  else if pyEqStr action "PULL_REQUEST" then
    pyStr author ++ " submitted a pull request from " ++ pyStr from_branch ++
      " to " ++ pyStr to_branch ++ " on " ++ timestamp
  else if pyEqStr action "MERGE" then
    pyStr author ++ " merged branch " ++ pyStr from_branch ++ " to " ++
      pyStr to_branch ++ " on " ++ timestamp
  else
    "Unknown action: " ++ pyStr action ++ " by " ++ pyStr author

/-- The body of the `try` block of `format_event` (lines 31-57), with each
Python expression that can raise made explicit:
`event_data['author']` and `event_data['action']` can raise `KeyError`;
`raw_timestamp.replace(...)` raises `AttributeError` when the (truthy)
timestamp is not a string; `datetime.fromisoformat` raises `ValueError` on a
failed parse. -/
def format_event_try (event_data : Record) : Except PyErr String :=
  match event_data.lookup "author" with
  | Option.none => .error (.keyError "author")
  | some author =>
    match event_data.lookup "action" with
    | Option.none => .error (.keyError "action")
    | some action =>
      let from_branch := (event_data.lookup "from_branch").getD (.str "")
      let to_branch := (event_data.lookup "to_branch").getD (.str "")
      let raw_timestamp := (event_data.lookup "timestamp").getD PyVal.none
      if raw_timestamp.truthy then
        match raw_timestamp with
        | .str ts =>
          match fromisoformat (pyReplace ts 'Z' "+00:00") with
          | Option.none => .error (.valueError "Invalid isoformat string")
          | some parsed_time =>
            .ok (renderAction author action from_branch to_branch
                  (strftimeDisplay parsed_time))
        | _ => .error (.attributeError "replace")
      else
        .ok "Event with missing timestamp"

/-- `format_event` (lines 25-62): the `try` body wrapped in
`except (ValueError, KeyError)`, which rewrites exactly those two exception
classes into the data-error string; any other exception propagates to the
caller. -/
def format_event (event_data : Record) : Except PyErr String :=
  match format_event_try event_data with
  | .error (.keyError _) => .ok (dataErrorString event_data)
  | .error (.valueError _) => .ok (dataErrorString event_data)
  | r => r

/-! ### `github_webhook` (app.py lines 66-125) -/

/-- The HTTP response the handler returns: the `status` field of the
`jsonify` body, plus the status code. -/
structure Response where
  status : String
  code : Nat
deriving DecidableEq, Repr

/-- Outcome of the normalization part of the handler (lines 72-115): either
an early `return` (the ignored-push response) or the final value of
`event_doc` (`None` or a candidate record). -/
inductive WebhookOutcome where
  | early : Response → WebhookOutcome
  | doc : Option Record → WebhookOutcome
deriving DecidableEq

/-- The `push` branch (lines 74-91): ignore payloads without a truthy
`head_commit`; otherwise read `pusher.name`, the last `/`-segment of `ref`,
`after` and `head_commit.timestamp`, and build the PUSH record. -/
def pushCase (data : PyVal) : Except PyErr WebhookOutcome :=
  match data.get "head_commit" .none with
  | .error e => .error e
  | .ok hc =>
    if hc.truthy then
      match data.subscript "pusher" with
      | .error e => .error e
      | .ok pusherObj =>
        match pusherObj.subscript "name" with
        | .error e => .error e
        | .ok pusher =>
          match data.subscript "ref" with
          | .error e => .error e
          | .ok refVal =>
            match refVal with
            | .str refStr =>
              let to_branch := pySplitLast refStr '/'
              match data.subscript "after" with
              | .error e => .error e
              | .ok commit_hash =>
                match data.subscript "head_commit" with
                | .error e => .error e
                | .ok hcVal =>
                  match hcVal.subscript "timestamp" with
                  | .error e => .error e
                  | .ok timestamp =>
                    .ok (.doc (some
                      [("request_id", commit_hash),
                       ("author", pusher),
                       ("action", .str "PUSH"),
                       ("from_branch", .str ""),
                       ("to_branch", .str to_branch),
                       ("timestamp", timestamp)]))
            | _ => .error (.attributeError "split")
    else
      .ok (.early ⟨"ignored, no head_commit", 200⟩)

/-- The `pull_request` branch (lines 93-115): `action = data.get('action')`,
`pr_data = data.get('pull_request', \x7b\x7d)`; `opened` builds the
PULL_REQUEST record; `closed and pr_data.get('merged')` builds the MERGE
record, reading the dict-literal values in source order (`request_id` before
`author`, so a `KeyError` on `id` fires before the `merged_by` access). -/
def prCase (data : PyVal) : Except PyErr WebhookOutcome :=
  match data.get "action" .none with
  | .error e => .error e
  | .ok action =>
    match data.get "pull_request" (.dict []) with
    | .error e => .error e
    | .ok pr_data =>
      if pyEqStr action "opened" then
        match pr_data.subscript "id" with
        | .error e => .error e
        | .ok idVal =>
          match pr_data.subscript "user" with
          | .error e => .error e
          | .ok userVal =>
            match userVal.subscript "login" with
            | .error e => .error e
            | .ok login =>
              match pr_data.subscript "head" with
              | .error e => .error e
              | .ok headVal =>
                match headVal.subscript "ref" with
                | .error e => .error e
                | .ok from_branch =>
                  match pr_data.subscript "base" with
                  | .error e => .error e
                  | .ok baseVal =>
                    match baseVal.subscript "ref" with
                    | .error e => .error e
                    | .ok to_branch =>
                      match pr_data.subscript "created_at" with
                      | .error e => .error e
                      | .ok created_at =>
                        .ok (.doc (some
                          [("request_id", .str (pyStr idVal)),
                           ("author", login),
                           ("action", .str "PULL_REQUEST"),
                           ("from_branch", from_branch),
                           ("to_branch", to_branch),
                           ("timestamp", created_at)]))
      else if pyEqStr action "closed" then
        match pr_data.get "merged" .none with
        | .error e => .error e
        | .ok merged =>
          if merged.truthy then
            match pr_data.subscript "id" with
            | .error e => .error e
            | .ok idVal =>
              match pr_data.get "merged_by" (.dict []) with
              | .error e => .error e
              | .ok mergedBy =>
                match mergedBy.get "login" (.str "Unknown") with
                | .error e => .error e
                | .ok author =>
                  match pr_data.subscript "head" with
                  | .error e => .error e
                  | .ok headVal =>
                    match headVal.subscript "ref" with
                    | .error e => .error e
                    | .ok from_branch =>
                      match pr_data.subscript "base" with
                      | .error e => .error e
                      | .ok baseVal =>
                        match baseVal.subscript "ref" with
                        | .error e => .error e
                        | .ok to_branch =>
                          match pr_data.subscript "merged_at" with
                          | .error e => .error e
                          | .ok merged_at =>
                            .ok (.doc (some
                              [("request_id", .str (pyStr idVal)),
                               ("author", author),
                               ("action", .str "MERGE"),
                               ("from_branch", from_branch),
                               ("to_branch", to_branch),
                               ("timestamp", merged_at)]))
          else
            .ok (.doc Option.none)
      else
        .ok (.doc Option.none)

/-- Lines 72-115 of the handler: dispatch on the `X-GitHub-Event` header
value; any other event type leaves `event_doc = None`. -/
def webhook_normalize (event_type : Option String) (data : PyVal) :
    Except PyErr WebhookOutcome :=
  if event_type = some "push" then pushCase data
  else if event_type = some "pull_request" then prCase data
  else .ok (.doc Option.none)

/-- Mongo equality of a record field against a query value: a present field
matches a query value equal to it; a missing field matches a `null` query
value. -/
def fieldMatches (r : Record) (k : String) (v : PyVal) : Bool :=
  (r.lookup k).getD PyVal.none = v

/-- The filter `{'request_id': rid, 'action': act}` of the `find_one` call on
line 119. -/
def matchesPair (r : Record) (rid act : PyVal) : Bool :=
  fieldMatches r "request_id" rid && fieldMatches r "action" act

/-- `events_collection.find_one({'request_id': ..., 'action': ...})`: the
first stored record matching the filter, if any. -/
def find_one (store : Store) (rid act : PyVal) : Option Record :=
  store.find? (fun r => matchesPair r rid act)

/-- The deduplication gate (lines 118-123): insert the candidate only when no
stored record shares its `(request_id, action)` pair. -/
def dedupInsert (doc : Record) (store : Store) : Store :=
  if (find_one store ((doc.lookup "request_id").getD PyVal.none)
        ((doc.lookup "action").getD PyVal.none)).isSome then store
  else store ++ [doc]

/-- `github_webhook` (lines 66-125): normalize, then run the candidate (when
`event_doc` is truthy) through the deduplication gate, answering
`{'status': 'success'}, 200`.  The subscripts `event_doc['request_id']` and
`event_doc['action']` on line 119 are kept as fallible accesses. -/
def github_webhook (event_type : Option String) (data : PyVal)
    (store : Store) : Except PyErr (Response × Store) :=
  match webhook_normalize event_type data with
  | .error e => .error e
  | .ok (.early r) => .ok (r, store)
  | .ok (.doc Option.none) => .ok (⟨"success", 200⟩, store)
  | .ok (.doc (some doc)) =>
    match recordItem doc "request_id" with
    | .error e => .error e
    | .ok rid =>
      match recordItem doc "action" with
      | .error e => .error e
      | .ok act =>
        if (find_one store rid act).isSome then
          .ok (⟨"success", 200⟩, store)
        else
          .ok (⟨"success", 200⟩, store ++ [doc])

/-! ### `get_events` (app.py lines 127-136) -/

/-- The Mongo sort key of a record for `.sort('timestamp', DESCENDING)`:
missing fields sort together with `null`, below numbers, below strings, below
objects, arrays and booleans (the BSON cross-type order); values of equal
type rank compare by their numeric or lexicographic value.  Containers are
tie-broken by their rendering, an approximation that no stored timestamp
reaches (the normalizer stores timestamps verbatim from string payload
fields). -/
def bsonKey : Option PyVal → Nat × Int × List Char
  | Option.none => (0, 0, [])
  | some .none => (0, 0, [])
  | some (.int n) => (1, n, [])
  | some (.str s) => (2, 0, s.data)
  | some (.dict d) => (3, 0, (pyStr (.dict d)).data)
  | some (.list l) => (4, 0, (pyStr (.list l)).data)
  | some (.bool b) => (5, if b then 1 else 0, [])

/-- Lexicographic comparison of character lists (the order Mongo uses on the
ASCII timestamp strings stored here). -/
def charListLE : List Char → List Char → Bool
  | [], _ => true
  | _ :: _, [] => false
  | a :: as, b :: bs =>
    if a < b then true else if b < a then false else charListLE as bs

/-- Comparison of two sort keys. -/
def keyLE (a b : Nat × Int × List Char) : Bool :=
  a.1 < b.1 ||
    (a.1 = b.1 && (a.2.1 < b.2.1 || (a.2.1 = b.2.1 && charListLE a.2.2 b.2.2)))

/-- The sort key of a record under `.sort('timestamp', DESCENDING)`. -/
def tsKey (r : Record) : Nat × Int × List Char :=
  bsonKey (r.lookup "timestamp")

/-- Descending-by-timestamp order on records: `r` may come before `q` when
`q`'s key is at most `r`'s. -/
def tsGE (r q : Record) : Prop :=
  keyLE (tsKey q) (tsKey r) = true

instance : DecidableRel tsGE := fun _ _ =>
  inferInstanceAs (Decidable (_ = true))

/-- `events_collection.find().sort('timestamp', DESCENDING)`: the stored
records sorted by timestamp descending (a stable sort; Mongo fixes no order
among equal keys, and every property proved below is insensitive to the order
chosen among ties). -/
def sortedEvents (store : Store) : Store :=
  List.insertionSort tsGE store

/-- `get_events` (lines 127-136): take the first 10 of the sorted records and
format each (`[format_event(event) for event in events]`; an exception from
`format_event` would propagate, which `format_event` only does for errors the
`except` clause does not cover). -/
def get_events (store : Store) : Except PyErr (List String) :=
  ((sortedEvents store).take 10).mapM format_event

/-! ### Helper lemmas -/

theorem pyReplaceChar_of_not_mem {p : Char} {rep : List Char} :
    ∀ {l : List Char}, p ∉ l → pyReplaceChar p rep l = l := by
  intro l
  induction l with
  | nil => intro _; rfl
  | cons c cs ih =>
    intro h
    have hc : c ≠ p := fun hcp => h (hcp ▸ List.mem_cons_self c cs)
    have hcs : p ∉ cs := fun hm => h (List.mem_cons_of_mem c hm)
    simp [pyReplaceChar, hc, ih hcs]

theorem pyReplaceChar_append (p : Char) (rep l₁ l₂ : List Char) :
    pyReplaceChar p rep (l₁ ++ l₂) =
      pyReplaceChar p rep l₁ ++ pyReplaceChar p rep l₂ := by
  induction l₁ with
  | nil => rfl
  | cons c cs ih => simp [pyReplaceChar, ih]

/-- Replacing `'Z'` in a string whose only `'Z'` is the final character
appends the replacement to the prefix. -/
theorem pyReplace_trailing_z (p : String) (hz : 'Z' ∉ p.data) :
    pyReplace (p ++ "Z") 'Z' "+00:00" = p ++ "+00:00" := by
  show String.mk (pyReplaceChar 'Z' "+00:00".data (p ++ "Z").data) = p ++ "+00:00"
  have hdata : (p ++ "Z").data = p.data ++ ['Z'] := by
    cases p; rfl
  rw [hdata, pyReplaceChar_append, pyReplaceChar_of_not_mem hz]
  show String.mk (p.data ++ "+00:00".data) = p ++ "+00:00"
  cases p; rfl

theorem append_z_ne_empty (p : String) : (p ++ "Z") ≠ "" := by
  intro h
  have : (p ++ "Z").data = "".data := by rw [h]
  have hdata : (p ++ "Z").data = p.data ++ ['Z'] := by cases p; rfl
  rw [hdata] at this
  simp at this

/-! ### Claim theorems: the Formatter -/

/-- Claim C1 (code divergence): `format_event` is not total on record-shaped
inputs with non-string field values.  A record whose `timestamp` is the
integer `7` (truthy, so the missing-timestamp guard does not fire) reaches
`raw_timestamp.replace('Z', '+00:00')`, and an integer has no `replace`
method: the resulting `AttributeError` is not one of the classes named in
`except (ValueError, KeyError)`, so it propagates to the caller. -/
theorem format_event_uncaught_attributeError :
    format_event
        [("author", .str "x"), ("action", .str "PUSH"), ("timestamp", .int 7)]
      = .error (.attributeError "replace") := rfl

/-- Claim C7: for a record whose `author` and `action` are readable and whose
`timestamp` is absent or the empty string, `format_event` returns exactly the
literal `"Event with missing timestamp"` (the falsiness guard on line 37
fires before any parsing). -/
theorem format_event_missing_timestamp (d : Record) (a act : PyVal)
    (ha : d.lookup "author" = some a) (hact : d.lookup "action" = some act)
    (hts : d.lookup "timestamp" = Option.none ∨
           d.lookup "timestamp" = some (.str "")) :
    format_event d = .ok "Event with missing timestamp" := by
  have htry : format_event_try d = .ok "Event with missing timestamp" := by
    unfold format_event_try
    rw [ha, hact]
    rcases hts with h | h <;> rw [h] <;> simp [PyVal.truthy]
  unfold format_event
  rw [htry]

/-- Witness for C7 at a concrete record with no `timestamp` key. -/
theorem format_event_missing_timestamp_witness :
    format_event [("author", .str "x"), ("action", .str "PUSH")]
      = .ok "Event with missing timestamp" :=
  format_event_missing_timestamp _ _ _ rfl rfl (Or.inl rfl)

/-- Claim C5: for a record whose (string) timestamp ends with a final `'Z'`
and contains no other `'Z'`, `format_event` treats that trailing `'Z'` as
the UTC offset `'+00:00'`: the string it hands to `fromisoformat` is the
prefix with `"+00:00"` appended.  When that parses, the record is rendered
through the `strftime` pattern `DD MonthName YYYY - HH:MM AM/PM UTC`
(zero-padded day, full month name, 4-digit year, 12-hour zero-padded hour,
zero-padded minute); when it fails to parse, the `ValueError` path yields the
data-error string. -/
theorem format_event_z_normalization (d : Record) (a act : PyVal) (p : String)
    (ha : d.lookup "author" = some a) (hact : d.lookup "action" = some act)
    (hts : d.lookup "timestamp" = some (.str (p ++ "Z")))
    (hz : 'Z' ∉ p.data) :
    (∀ dt : PyDatetime, fromisoformat (p ++ "+00:00") = some dt →
      format_event d =
        .ok (renderAction a act ((d.lookup "from_branch").getD (.str ""))
              ((d.lookup "to_branch").getD (.str "")) (strftimeDisplay dt)) ∧
      strftimeDisplay dt =
        pad2 dt.day ++ " " ++ monthName dt.month ++ " " ++ pad4 dt.year ++
          " - " ++ pad2 (hour12 dt.hour) ++ ":" ++ pad2 dt.minute ++ " " ++
          ampm dt.hour ++ " UTC") ∧
    (fromisoformat (p ++ "+00:00") = Option.none →
      format_event d = .ok (dataErrorString d)) := by
  have hrepl := pyReplace_trailing_z p hz
  have htruthy : (PyVal.str (p ++ "Z")).truthy = true := by
    simp [PyVal.truthy, append_z_ne_empty p]
  constructor
  · intro dt hdt
    constructor
    · have htry : format_event_try d =
          .ok (renderAction a act ((d.lookup "from_branch").getD (.str ""))
                ((d.lookup "to_branch").getD (.str "")) (strftimeDisplay dt)) := by
        unfold format_event_try
        rw [ha, hact, hts]
        simp only [Option.getD_some, htruthy, if_true]
        rw [hrepl, hdt]
      unfold format_event
      rw [htry]
    · rfl
  · intro hnone
    have htry : format_event_try d = .error (.valueError "Invalid isoformat string") := by
      unfold format_event_try
      rw [ha, hact, hts]
      simp only [Option.getD_some, htruthy, if_true]
      rw [hrepl, hnone]
    unfold format_event
    rw [htry]

/-- Witness for C5: the spec scenario timestamp `"2024-03-01T10:15:00Z"`
renders as `"01 March 2024 - 10:15 AM UTC"`, which occurs in the formatted
output. -/
theorem format_event_z_normalization_witness :
    format_event
        [("author", .str "alice"), ("action", .str "PUSH"),
         ("to_branch", .str "main"),
         ("timestamp", .str "2024-03-01T10:15:00Z")]
      = .ok "alice pushed to main on 01 March 2024 - 10:15 AM UTC" ∧
    strContains "alice pushed to main on 01 March 2024 - 10:15 AM UTC"
        "01 March 2024 - 10:15 AM UTC" = true :=
  ⟨((format_event_z_normalization
      [("author", .str "alice"), ("action", .str "PUSH"),
       ("to_branch", .str "main"),
       ("timestamp", .str "2024-03-01T10:15:00Z")]
      (.str "alice") (.str "PUSH") "2024-03-01T10:15:00" rfl rfl rfl
      (by decide)).1 ⟨2024, 3, 1, 10, 15, 0, 0, some 0⟩ (by decide)).1,
   by decide⟩

/-- Claim C9: when the timestamp parses with a non-zero UTC offset,
`format_event` renders the wall-clock fields of the parsed datetime
unchanged — the rendering is identical to that of the same wall clock at
offset zero, so no conversion of the instant to UTC happens — and the
rendered timestamp still carries the literal `" UTC"` suffix (it sits in the
`strftime` format string). -/
theorem format_event_offset_wall_clock (d : Record) (a act : PyVal)
    (ts : String) (dt : PyDatetime) (off : Int)
    (ha : d.lookup "author" = some a) (hact : d.lookup "action" = some act)
    (hts : d.lookup "timestamp" = some (.str ts)) (hne : ts ≠ "")
    (hparse : fromisoformat (pyReplace ts 'Z' "+00:00") = some dt)
    (_hoff : dt.tzOffsetMicros = some off) (_hoffnz : off ≠ 0) :
    format_event d =
      .ok (renderAction a act ((d.lookup "from_branch").getD (.str ""))
            ((d.lookup "to_branch").getD (.str "")) (strftimeDisplay dt)) ∧
    strftimeDisplay dt =
      strftimeDisplay
        ⟨dt.year, dt.month, dt.day, dt.hour, dt.minute, dt.second,
         dt.microsecond, some 0⟩ ∧
    strftimeDisplay dt =
      (pad2 dt.day ++ " " ++ monthName dt.month ++ " " ++ pad4 dt.year ++
        " - ") ++
      (pad2 (hour12 dt.hour) ++ ":" ++ pad2 dt.minute ++ " " ++ ampm dt.hour)
        ++ " UTC" := by
  refine ⟨?_, rfl, ?_⟩
  · have htruthy : (PyVal.str ts).truthy = true := by
      simp [PyVal.truthy, hne]
    have htry : format_event_try d =
        .ok (renderAction a act ((d.lookup "from_branch").getD (.str ""))
              ((d.lookup "to_branch").getD (.str "")) (strftimeDisplay dt)) := by
      unfold format_event_try
      rw [ha, hact, hts]
      simp only [Option.getD_some, htruthy, if_true]
      rw [hparse]
    unfold format_event
    rw [htry]
  · unfold strftimeDisplay
    simp [String.append_assoc]

/-- Witness for C9: the timestamp `"2024-03-01T10:15:00+05:30"` (offset
+05:30, i.e. 19800000000 microseconds) renders as 10:15 AM with the `UTC`
suffix. -/
theorem format_event_offset_wall_clock_witness :
    format_event
        [("author", .str "x"), ("action", .str "PUSH"),
         ("to_branch", .str "m"),
         ("timestamp", .str "2024-03-01T10:15:00+05:30")]
      = .ok "x pushed to m on 01 March 2024 - 10:15 AM UTC" ∧
    (19800000000 : Int) ≠ 0 :=
  ⟨(format_event_offset_wall_clock
      [("author", .str "x"), ("action", .str "PUSH"),
       ("to_branch", .str "m"),
       ("timestamp", .str "2024-03-01T10:15:00+05:30")]
      (.str "x") (.str "PUSH") "2024-03-01T10:15:00+05:30"
      ⟨2024, 3, 1, 10, 15, 0, 0, some 19800000000⟩ 19800000000
      rfl rfl rfl (by decide) (by decide) rfl (by decide)).1,
   by decide⟩

/-! ### Claim theorems: the Normalizer -/

theorem pushCase_doc_shape {data : PyVal} {doc : Record}
    (h : pushCase data = .ok (.doc (some doc))) :
    ∃ ch pu tb ts, doc =
      [("request_id", ch), ("author", pu), ("action", PyVal.str "PUSH"),
       ("from_branch", PyVal.str ""), ("to_branch", PyVal.str tb),
       ("timestamp", ts)] := by
  unfold pushCase at h
  repeat' split at h
  all_goals cases h
  all_goals exact ⟨_, _, _, _, rfl⟩

theorem prCase_action_shape {data : PyVal} {doc : Record}
    (h : prCase data = .ok (.doc (some doc))) :
    doc.lookup "action" = some (.str "PULL_REQUEST") ∨
      doc.lookup "action" = some (.str "MERGE") := by
  unfold prCase at h
  repeat' split at h
  all_goals cases h
  all_goals first
    | exact Or.inl rfl
    | exact Or.inr rfl

/-- When normalization yields a candidate record (which always carries
`request_id` and `action`), the handler answers success and runs the
candidate through the deduplication gate. -/
theorem github_webhook_doc_eq (et : Option String) (data : PyVal)
    (doc : Record) (store : Store) (rid act : PyVal)
    (h : webhook_normalize et data = .ok (.doc (some doc)))
    (hr : doc.lookup "request_id" = some rid)
    (hac : doc.lookup "action" = some act) :
    github_webhook et data store = .ok (⟨"success", 200⟩, dedupInsert doc store) := by
  unfold github_webhook
  rw [h]
  simp only [recordItem, hr, hac, dedupInsert, Option.getD_some]
  split <;> rfl

/-- Claim C3: push normalization.  (1) A push payload without a truthy
`head_commit` is a no-op: the handler answers the ignored response and the
store is untouched.  (2) Otherwise the candidate record is exactly
`author` = pusher name, `to_branch` = final `/`-segment of `ref`,
`from_branch` = `""`, `request_id` = the `after` hash, `timestamp` = the
head-commit timestamp, `action` = `"PUSH"`, and it is handed to the
deduplication gate.  (3) Every candidate the normalizer ever produces with
`action = "PUSH"` has `from_branch = ""`. -/
theorem push_normalization (data : PyVal) (store : Store) :
    (∀ dd : Record, data = .dict dd →
      ((dd.lookup "head_commit").getD PyVal.none).truthy = false →
      github_webhook (some "push") data store =
        .ok (⟨"ignored, no head_commit", 200⟩, store)) ∧
    (∀ (dd hcd pu : Record) (name : PyVal) (refStr : String) (aft ts : PyVal),
      data = .dict dd →
      dd.lookup "head_commit" = some (.dict hcd) →
      (PyVal.dict hcd).truthy = true →
      dd.lookup "pusher" = some (.dict pu) →
      pu.lookup "name" = some name →
      dd.lookup "ref" = some (.str refStr) →
      dd.lookup "after" = some aft →
      hcd.lookup "timestamp" = some ts →
      github_webhook (some "push") data store =
        .ok (⟨"success", 200⟩,
          dedupInsert
            [("request_id", aft), ("author", name), ("action", .str "PUSH"),
             ("from_branch", .str ""),
             ("to_branch", .str (pySplitLast refStr '/')),
             ("timestamp", ts)] store)) ∧
    (∀ (et : Option String) (d2 : PyVal) (doc : Record),
      webhook_normalize et d2 = .ok (.doc (some doc)) →
      doc.lookup "action" = some (.str "PUSH") →
      doc.lookup "from_branch" = some (.str "")) := by
  refine ⟨?_, ?_, ?_⟩
  · intro dd hdd hfalsy
    subst hdd
    unfold github_webhook webhook_normalize pushCase
    simp only [PyVal.get, hfalsy, reduceIte, if_true, if_false, Bool.false_eq_true]
  · intro dd hcd pu name refStr aft ts hdd hhc htr hpu hname href haft hts
    subst hdd
    have hnorm : webhook_normalize (some "push") (.dict dd) =
        .ok (.doc (some
          [("request_id", aft), ("author", name), ("action", .str "PUSH"),
           ("from_branch", .str ""),
           ("to_branch", .str (pySplitLast refStr '/')),
           ("timestamp", ts)])) := by
      unfold webhook_normalize pushCase
      simp only [PyVal.get, PyVal.subscript, hhc, hpu, hname, href, haft, hts,
        Option.getD_some, htr, if_true, reduceIte]
    exact github_webhook_doc_eq _ _ _ _ _ _ hnorm rfl rfl
  · intro et d2 doc hnorm hact
    unfold webhook_normalize at hnorm
    by_cases hpush : et = some "push"
    · rw [if_pos hpush] at hnorm
      obtain ⟨ch, pu, tb, ts, hdoc⟩ := pushCase_doc_shape hnorm
      subst hdoc
      rfl
    · rw [if_neg hpush] at hnorm
      by_cases hpr : et = some "pull_request"
      · rw [if_pos hpr] at hnorm
        rcases prCase_action_shape hnorm with h | h <;>
          (rw [hact] at h; simp at h)
      · rw [if_neg hpr] at hnorm
        cases hnorm

/-- Witness for C3 at the spec scenario payload (`ref="refs/heads/main"`,
`after="abc123"`, pusher `"alice"`), for both the ignored and the stored
branch. -/
theorem push_normalization_witness :
    github_webhook (some "push")
        (.dict [("ref", .str "refs/heads/main"), ("after", .str "abc123"),
                ("pusher", .dict [("name", .str "alice")]),
                ("head_commit", .dict
                  [("timestamp", .str "2024-03-01T10:15:00Z")])])
        [] =
      .ok (⟨"success", 200⟩,
        [[("request_id", .str "abc123"), ("author", .str "alice"),
          ("action", .str "PUSH"), ("from_branch", .str ""),
          ("to_branch", .str "main"),
          ("timestamp", .str "2024-03-01T10:15:00Z")]]) ∧
    github_webhook (some "push") (.dict [("ref", .str "refs/heads/x")]) [] =
      .ok (⟨"ignored, no head_commit", 200⟩, []) := by
  constructor
  · have h := (push_normalization
      (.dict [("ref", .str "refs/heads/main"), ("after", .str "abc123"),
              ("pusher", .dict [("name", .str "alice")]),
              ("head_commit", .dict
                [("timestamp", .str "2024-03-01T10:15:00Z")])])
      []).2.1
      [("ref", .str "refs/heads/main"), ("after", .str "abc123"),
       ("pusher", .dict [("name", .str "alice")]),
       ("head_commit", .dict [("timestamp", .str "2024-03-01T10:15:00Z")])]
      [("timestamp", .str "2024-03-01T10:15:00Z")]
      [("name", .str "alice")]
      (.str "alice") "refs/heads/main" (.str "abc123")
      (.str "2024-03-01T10:15:00Z")
      rfl rfl (by decide) rfl rfl rfl rfl rfl
    exact h.trans rfl
  · exact (push_normalization (.dict [("ref", .str "refs/heads/x")]) []).1
      [("ref", .str "refs/heads/x")] rfl (by decide)

/-- Claim C4: pull-request close normalization.  With inner action
`"closed"`: when `merged` is truthy the candidate is a MERGE record whose
`author` is the `merged_by` login, defaulting to the literal `"Unknown"`
when absent, whose `request_id` is the string form of the numeric `id`,
whose branches are the head/base ref names and whose `timestamp` is
`merged_at`; when `merged` is falsy nothing is produced and the store is
unchanged. -/
theorem pr_close_normalization (dd pr : Record) (store : Store)
    (hact : dd.lookup "action" = some (.str "closed"))
    (hpr : dd.lookup "pull_request" = some (.dict pr)) :
    (∀ (n : Int) (m hv bv : Record) (fb tb ma : PyVal),
      ((pr.lookup "merged").getD PyVal.none).truthy = true →
      pr.lookup "id" = some (.int n) →
      (pr.lookup "merged_by").getD (.dict []) = .dict m →
      pr.lookup "head" = some (.dict hv) → hv.lookup "ref" = some fb →
      pr.lookup "base" = some (.dict bv) → bv.lookup "ref" = some tb →
      pr.lookup "merged_at" = some ma →
      github_webhook (some "pull_request") (.dict dd) store =
        .ok (⟨"success", 200⟩,
          dedupInsert
            [("request_id", .str (toString n)),
             ("author", (m.lookup "login").getD (.str "Unknown")),
             ("action", .str "MERGE"), ("from_branch", fb),
             ("to_branch", tb), ("timestamp", ma)] store)) ∧
    (((pr.lookup "merged").getD PyVal.none).truthy = false →
      github_webhook (some "pull_request") (.dict dd) store =
        .ok (⟨"success", 200⟩, store)) := by
  constructor
  · intro n m hv bv fb tb ma hm hid hmb hh hf hb ht hma
    have hnorm : webhook_normalize (some "pull_request") (.dict dd) =
        .ok (.doc (some
          [("request_id", .str (toString n)),
           ("author", (m.lookup "login").getD (.str "Unknown")),
           ("action", .str "MERGE"), ("from_branch", fb),
           ("to_branch", tb), ("timestamp", ma)])) := by
      unfold webhook_normalize prCase
      simp only [PyVal.get, PyVal.subscript, hact, hpr, Option.getD_some, hmb,
        hm, hid, hh, hf, hb, ht, hma, pyEqStr, if_true, reduceIte, pyStr,
        pyScalarRepr]
      simp [pyEqStr]
    exact github_webhook_doc_eq _ _ _ _ _ _ hnorm rfl rfl
  · intro hm
    unfold github_webhook webhook_normalize prCase
    simp only [PyVal.get, hact, hpr, Option.getD_some, hm, Bool.false_eq_true,
      if_false, reduceIte]
    simp [pyEqStr]

/-- Witness for C4: a merged close (with `merged_by` login `"carol"`) stores
a MERGE record; an unmerged close stores nothing. -/
theorem pr_close_normalization_witness :
    github_webhook (some "pull_request")
        (.dict [("action", .str "closed"),
                ("pull_request", .dict
                  [("id", .int 42), ("merged", .bool true),
                   ("merged_by", .dict [("login", .str "carol")]),
                   ("head", .dict [("ref", .str "feature-x")]),
                   ("base", .dict [("ref", .str "main")]),
                   ("merged_at", .str "2024-03-03T09:30:00Z")])])
        [] =
      .ok (⟨"success", 200⟩,
        [[("request_id", .str "42"), ("author", .str "carol"),
          ("action", .str "MERGE"), ("from_branch", .str "feature-x"),
          ("to_branch", .str "main"),
          ("timestamp", .str "2024-03-03T09:30:00Z")]]) ∧
    github_webhook (some "pull_request")
        (.dict [("action", .str "closed"),
                ("pull_request", .dict
                  [("id", .int 42), ("merged", .bool false)])])
        [] =
      .ok (⟨"success", 200⟩, []) := by
  constructor
  · have h := (pr_close_normalization
      [("action", .str "closed"),
       ("pull_request", .dict
         [("id", .int 42), ("merged", .bool true),
          ("merged_by", .dict [("login", .str "carol")]),
          ("head", .dict [("ref", .str "feature-x")]),
          ("base", .dict [("ref", .str "main")]),
          ("merged_at", .str "2024-03-03T09:30:00Z")])]
      [("id", .int 42), ("merged", .bool true),
       ("merged_by", .dict [("login", .str "carol")]),
       ("head", .dict [("ref", .str "feature-x")]),
       ("base", .dict [("ref", .str "main")]),
       ("merged_at", .str "2024-03-03T09:30:00Z")]
      [] rfl rfl).1
      42 [("login", .str "carol")] [("ref", .str "feature-x")]
      [("ref", .str "main")] (.str "feature-x") (.str "main")
      (.str "2024-03-03T09:30:00Z")
      (by decide) rfl rfl rfl rfl rfl rfl rfl
    exact h.trans rfl
  · exact (pr_close_normalization
      [("action", .str "closed"),
       ("pull_request", .dict [("id", .int 42), ("merged", .bool false)])]
      [("id", .int 42), ("merged", .bool false)]
      [] rfl rfl).2 (by decide)

/-- Claim C10: in the merged-close branch, the `"Unknown"` author arises
exactly when `merged_by` is absent from the `pull_request` mapping or maps to
a mapping without a `login` key; but when `merged_by` is present with the
value `null` (a non-mapping), `pr_data.get('merged_by', {}).get('login',
'Unknown')` calls `.get` on `None`, and the `AttributeError` propagates out
of the handler instead of a record with author `"Unknown"` being produced. -/
theorem merged_by_shapes (dd pr : Record) (idv : PyVal) (store : Store)
    (hact : dd.lookup "action" = some (.str "closed"))
    (hpr : dd.lookup "pull_request" = some (.dict pr))
    (hm : ((pr.lookup "merged").getD PyVal.none).truthy = true)
    (hid : pr.lookup "id" = some idv) :
    (∀ (hv bv : Record) (fb tb ma : PyVal),
      pr.lookup "merged_by" = Option.none →
      pr.lookup "head" = some (.dict hv) → hv.lookup "ref" = some fb →
      pr.lookup "base" = some (.dict bv) → bv.lookup "ref" = some tb →
      pr.lookup "merged_at" = some ma →
      webhook_normalize (some "pull_request") (.dict dd) =
        .ok (.doc (some
          [("request_id", .str (pyStr idv)), ("author", .str "Unknown"),
           ("action", .str "MERGE"), ("from_branch", fb),
           ("to_branch", tb), ("timestamp", ma)]))) ∧
    (∀ (mb hv bv : Record) (fb tb ma : PyVal),
      pr.lookup "merged_by" = some (.dict mb) →
      mb.lookup "login" = Option.none →
      pr.lookup "head" = some (.dict hv) → hv.lookup "ref" = some fb →
      pr.lookup "base" = some (.dict bv) → bv.lookup "ref" = some tb →
      pr.lookup "merged_at" = some ma →
      webhook_normalize (some "pull_request") (.dict dd) =
        .ok (.doc (some
          [("request_id", .str (pyStr idv)), ("author", .str "Unknown"),
           ("action", .str "MERGE"), ("from_branch", fb),
           ("to_branch", tb), ("timestamp", ma)]))) ∧
    (pr.lookup "merged_by" = some PyVal.none →
      github_webhook (some "pull_request") (.dict dd) store =
        .error (.attributeError "get")) := by
  refine ⟨?_, ?_, ?_⟩
  · intro hv bv fb tb ma hmb hh hf hb ht hma
    unfold webhook_normalize prCase
    simp only [PyVal.get, PyVal.subscript, hact, hpr, Option.getD_some, hmb,
      hm, hid, hh, hf, hb, ht, hma, Option.getD_none, if_true, reduceIte]
    simp [pyEqStr]
  · intro mb hv bv fb tb ma hmb hlogin hh hf hb ht hma
    unfold webhook_normalize prCase
    simp only [PyVal.get, PyVal.subscript, hact, hpr, Option.getD_some, hmb,
      hlogin, hm, hid, hh, hf, hb, ht, hma, Option.getD_none, if_true,
      reduceIte]
    simp [pyEqStr]
  · intro hmb
    unfold github_webhook webhook_normalize prCase
    simp only [PyVal.get, hact, hpr, Option.getD_some, hmb, hm, hid, if_true,
      reduceIte]
    simp [pyEqStr, PyVal.subscript, hid]

/-- Witness for C10: `merged_by` absent yields author `"Unknown"`;
`merged_by: null` makes the handler raise `AttributeError`. -/
theorem merged_by_shapes_witness :
    webhook_normalize (some "pull_request")
        (.dict [("action", .str "closed"),
                ("pull_request", .dict
                  [("id", .int 42), ("merged", .bool true),
                   ("head", .dict [("ref", .str "f")]),
                   ("base", .dict [("ref", .str "m")]),
                   ("merged_at", .str "2024-03-03T09:30:00Z")])]) =
      .ok (.doc (some
        [("request_id", .str "42"), ("author", .str "Unknown"),
         ("action", .str "MERGE"), ("from_branch", .str "f"),
         ("to_branch", .str "m"),
         ("timestamp", .str "2024-03-03T09:30:00Z")])) ∧
    github_webhook (some "pull_request")
        (.dict [("action", .str "closed"),
                ("pull_request", .dict
                  [("id", .int 42), ("merged", .bool true),
                   ("merged_by", .none),
                   ("head", .dict [("ref", .str "f")]),
                   ("base", .dict [("ref", .str "m")]),
                   ("merged_at", .str "2024-03-03T09:30:00Z")])])
        [] =
      .error (.attributeError "get") := by
  constructor
  · have h := (merged_by_shapes
      [("action", .str "closed"),
       ("pull_request", .dict
         [("id", .int 42), ("merged", .bool true),
          ("head", .dict [("ref", .str "f")]),
          ("base", .dict [("ref", .str "m")]),
          ("merged_at", .str "2024-03-03T09:30:00Z")])]
      [("id", .int 42), ("merged", .bool true),
       ("head", .dict [("ref", .str "f")]),
       ("base", .dict [("ref", .str "m")]),
       ("merged_at", .str "2024-03-03T09:30:00Z")]
      (.int 42) [] rfl rfl (by decide) rfl).1
      [("ref", .str "f")] [("ref", .str "m")] (.str "f") (.str "m")
      (.str "2024-03-03T09:30:00Z") rfl rfl rfl rfl rfl rfl
    exact h.trans rfl
  · exact (merged_by_shapes
      [("action", .str "closed"),
       ("pull_request", .dict
         [("id", .int 42), ("merged", .bool true), ("merged_by", .none),
          ("head", .dict [("ref", .str "f")]),
          ("base", .dict [("ref", .str "m")]),
          ("merged_at", .str "2024-03-03T09:30:00Z")])]
      [("id", .int 42), ("merged", .bool true), ("merged_by", .none),
       ("head", .dict [("ref", .str "f")]),
       ("base", .dict [("ref", .str "m")]),
       ("merged_at", .str "2024-03-03T09:30:00Z")]
      (.int 42) [] rfl rfl (by decide) rfl).2.2 rfl

/-- Claim C8: a push payload that passes the head-commit gate but is missing
a genuinely required sub-field (pusher name, ref, or after hash) makes the
handler raise the corresponding `KeyError`, which propagates to the caller as
a request-level failure — nothing is swallowed, no response is produced, and
no record is stored. -/
theorem push_missing_field_error (dd : Record) (hc : PyVal) (store : Store)
    (hhc : dd.lookup "head_commit" = some hc) (htr : hc.truthy = true) :
    (dd.lookup "pusher" = Option.none →
      github_webhook (some "push") (.dict dd) store =
        .error (.keyError "pusher")) ∧
    (∀ pu : Record, dd.lookup "pusher" = some (.dict pu) →
      pu.lookup "name" = Option.none →
      github_webhook (some "push") (.dict dd) store =
        .error (.keyError "name")) ∧
    (∀ (pu : Record) (nm : PyVal), dd.lookup "pusher" = some (.dict pu) →
      pu.lookup "name" = some nm →
      dd.lookup "ref" = Option.none →
      github_webhook (some "push") (.dict dd) store =
        .error (.keyError "ref")) ∧
    (∀ (pu : Record) (nm : PyVal) (refStr : String),
      dd.lookup "pusher" = some (.dict pu) →
      pu.lookup "name" = some nm →
      dd.lookup "ref" = some (.str refStr) →
      dd.lookup "after" = Option.none →
      github_webhook (some "push") (.dict dd) store =
        .error (.keyError "after")) := by
  refine ⟨?_, ?_, ?_, ?_⟩
  · intro hpu
    unfold github_webhook webhook_normalize pushCase
    simp [PyVal.get, PyVal.subscript, hhc, htr, hpu]
  · intro pu hpu hname
    unfold github_webhook webhook_normalize pushCase
    simp [PyVal.get, PyVal.subscript, hhc, htr, hpu, hname]
  · intro pu nm hpu hname href
    unfold github_webhook webhook_normalize pushCase
    simp [PyVal.get, PyVal.subscript, hhc, htr, hpu, hname, href]
  · intro pu nm refStr hpu hname href haft
    unfold github_webhook webhook_normalize pushCase
    simp [PyVal.get, PyVal.subscript, hhc, htr, hpu, hname, href, haft]

/-- Witness for C8: a push payload with a head commit but no `pusher` raises
`KeyError('pusher')`. -/
theorem push_missing_field_error_witness :
    github_webhook (some "push")
        (.dict [("ref", .str "refs/heads/main"), ("after", .str "abc"),
                ("head_commit", .dict [("timestamp", .str "t")])])
        [] =
      .error (.keyError "pusher") :=
  (push_missing_field_error
    [("ref", .str "refs/heads/main"), ("after", .str "abc"),
     ("head_commit", .dict [("timestamp", .str "t")])]
    (.dict [("timestamp", .str "t")]) [] rfl (by decide)).1 rfl

/-! ### Claim theorems: the Deduplication Gate -/

/-- Number of stored records matching a `(request_id, action)` filter. -/
def pairCount (store : Store) (rid act : PyVal) : Nat :=
  store.countP (fun r => matchesPair r rid act)

/-- The deduplication invariant: at most one stored record per
`(request_id, action)` pair. -/
def DedupInv (store : Store) : Prop :=
  ∀ rid act : PyVal, pairCount store rid act ≤ 1

theorem find_one_isSome_iff (store : Store) (rid act : PyVal) :
    (find_one store rid act).isSome = true ↔ pairCount store rid act ≠ 0 := by
  unfold find_one pairCount
  rw [List.find?_isSome, Nat.ne_zero_iff_zero_lt, List.countP_pos_iff]

theorem matchesPair_self (doc : Record) (rid act : PyVal)
    (hrid : doc.lookup "request_id" = some rid)
    (hact : doc.lookup "action" = some act) :
    matchesPair doc rid act = true := by
  simp [matchesPair, fieldMatches, hrid, hact]

theorem matchesPair_eq_of_true {doc : Record} {q a : PyVal}
    (h : matchesPair doc q a = true) :
    (doc.lookup "request_id").getD PyVal.none = q ∧
      (doc.lookup "action").getD PyVal.none = a := by
  simpa [matchesPair, fieldMatches] using h

theorem pairCount_append_doc (store : Store) (doc : Record) (rid act : PyVal) :
    pairCount (store ++ [doc]) rid act =
      pairCount store rid act + (if matchesPair doc rid act then 1 else 0) := by
  unfold pairCount
  rw [List.countP_append]
  simp [List.countP_cons]

theorem dedupInsert_cases (doc : Record) (store : Store) (rid act : PyVal)
    (hrid : doc.lookup "request_id" = some rid)
    (hact : doc.lookup "action" = some act) :
    (pairCount store rid act ≠ 0 → dedupInsert doc store = store) ∧
    (pairCount store rid act = 0 → dedupInsert doc store = store ++ [doc]) := by
  unfold dedupInsert
  rw [hrid, hact]
  simp only [Option.getD_some]
  constructor
  · intro hne
    rw [if_pos ((find_one_isSome_iff store rid act).mpr hne)]
  · intro hz
    rw [if_neg]
    intro hs
    exact (find_one_isSome_iff store rid act).mp hs hz

/-- Claim C2: the `(request_id, action)` pair is the deduplication key.
When the handler produces a candidate whose pair already exists, the
candidate is discarded and the store is unchanged; when the pair is fresh the
candidate is appended and its pair then counts exactly one; the at-most-one-
per-pair invariant is preserved; and two sequentially processed events whose
candidates share the pair leave exactly one such stored record. -/
theorem github_webhook_dedup (et : Option String) (data : PyVal)
    (store : Store) (doc : Record) (rid act : PyVal) (resp : Response)
    (s1 : Store)
    (hnorm : webhook_normalize et data = .ok (.doc (some doc)))
    (hrid : doc.lookup "request_id" = some rid)
    (hact : doc.lookup "action" = some act)
    (h1 : github_webhook et data store = .ok (resp, s1)) :
    (pairCount store rid act ≠ 0 → s1 = store) ∧
    (pairCount store rid act = 0 →
      s1 = store ++ [doc] ∧ pairCount s1 rid act = 1) ∧
    (DedupInv store → DedupInv s1) ∧
    (∀ (et2 : Option String) (d2 : PyVal) (doc2 : Record) (resp2 : Response)
        (s2 : Store),
      webhook_normalize et2 d2 = .ok (.doc (some doc2)) →
      doc2.lookup "request_id" = some rid →
      doc2.lookup "action" = some act →
      github_webhook et2 d2 s1 = .ok (resp2, s2) →
      pairCount store rid act = 0 →
      pairCount s2 rid act = 1) := by
  have hEq := github_webhook_doc_eq et data doc store rid act hnorm hrid hact
  rw [h1] at hEq
  have hs1 : s1 = dedupInsert doc store := congrArg Prod.snd (Except.ok.inj hEq)
  have hcases := dedupInsert_cases doc store rid act hrid hact
  have hfresh : pairCount store rid act = 0 →
      s1 = store ++ [doc] ∧ pairCount s1 rid act = 1 := by
    intro hz
    have hins : s1 = store ++ [doc] := hs1.trans (hcases.2 hz)
    refine ⟨hins, ?_⟩
    rw [hins, pairCount_append_doc, hz,
      if_pos (matchesPair_self doc rid act hrid hact)]
  refine ⟨fun hne => hs1.trans (hcases.1 hne), hfresh, ?_, ?_⟩
  · intro hinv q a
    by_cases hz : pairCount store rid act = 0
    · rw [(hfresh hz).1, pairCount_append_doc]
      by_cases hmq : matchesPair doc q a = true
      · obtain ⟨h1', h2'⟩ := matchesPair_eq_of_true hmq
        rw [hrid] at h1'
        rw [hact] at h2'
        simp only [Option.getD_some] at h1' h2'
        subst h1'
        subst h2'
        rw [hz, hmq]
        simp
      · rw [if_neg hmq]
        simpa using hinv q a
    · rw [hs1.trans (hcases.1 hz)]
      exact hinv q a
  · intro et2 d2 doc2 resp2 s2 hnorm2 hrid2 hact2 h2 hz
    obtain ⟨hins, hcount1⟩ := hfresh hz
    have hEq2 := github_webhook_doc_eq et2 d2 doc2 s1 rid act hnorm2 hrid2 hact2
    rw [h2] at hEq2
    have hs2 : s2 = dedupInsert doc2 s1 := congrArg Prod.snd (Except.ok.inj hEq2)
    have hcases2 := dedupInsert_cases doc2 s1 rid act hrid2 hact2
    have : s2 = s1 := hs2.trans (hcases2.1 (by rw [hcount1]; exact one_ne_zero))
    rw [this, hcount1]

/-- The concrete push payload used by the C2 witness. -/
def c2Payload : PyVal := .dict
  [("ref", .str "refs/heads/main"), ("after", .str "abc123"),
   ("pusher", .dict [("name", .str "alice")]),
   ("head_commit", .dict [("timestamp", .str "2024-03-01T10:15:00Z")])]

/-- The canonical record the C2 witness payload normalizes to. -/
def c2Doc : Record :=
  [("request_id", .str "abc123"), ("author", .str "alice"),
   ("action", .str "PUSH"), ("from_branch", .str ""),
   ("to_branch", .str "main"), ("timestamp", .str "2024-03-01T10:15:00Z")]

/-- Witness for C2: delivering the same push payload twice, starting from the
empty store, leaves exactly one record for the pair
`("abc123", "PUSH")`. -/
theorem github_webhook_dedup_witness :
    pairCount [c2Doc] (.str "abc123") (.str "PUSH") = 1 :=
  (github_webhook_dedup (some "push") c2Payload [] c2Doc
      (.str "abc123") (.str "PUSH") ⟨"success", 200⟩ [c2Doc]
      rfl rfl rfl rfl).2.2.2
    (some "push") c2Payload c2Doc ⟨"success", 200⟩ [c2Doc]
    rfl rfl rfl rfl rfl

/-! ### Claim theorems: the query surface -/

theorem charListLE_cons (a b : Char) (as bs : List Char) :
    charListLE (a :: as) (b :: bs) = true ↔
      a < b ∨ (a = b ∧ charListLE as bs = true) := by
  show (if a < b then true else if b < a then false else charListLE as bs)
      = true ↔ _
  split_ifs with h1 h2
  · simp [h1]
  · simp [lt_asymm h2, ne_of_gt h2]
  · have heq : a = b := le_antisymm (not_lt.mp h2) (not_lt.mp h1)
    simp [heq]

theorem charListLE_total : ∀ a b : List Char,
    charListLE a b = true ∨ charListLE b a = true
  | [], _ => Or.inl rfl
  | _ :: _, [] => Or.inr rfl
  | a :: as, b :: bs => by
    rcases lt_trichotomy a b with h | h | h
    · exact Or.inl ((charListLE_cons a b as bs).mpr (Or.inl h))
    · subst h
      rcases charListLE_total as bs with h | h
      · exact Or.inl ((charListLE_cons a a as bs).mpr (Or.inr ⟨rfl, h⟩))
      · exact Or.inr ((charListLE_cons a a bs as).mpr (Or.inr ⟨rfl, h⟩))
    · exact Or.inr ((charListLE_cons b a bs as).mpr (Or.inl h))

theorem charListLE_trans : ∀ a b c : List Char,
    charListLE a b = true → charListLE b c = true → charListLE a c = true
  | [], _, _ => fun _ _ => rfl
  | a :: as, [], c => fun hab _ => by cases hab
  | a :: as, b :: bs, [] => fun _ hbc => by cases hbc
  | a :: as, b :: bs, c :: cs => fun hab hbc => by
    rcases (charListLE_cons a b as bs).mp hab with h1 | ⟨h1, h1r⟩ <;>
      rcases (charListLE_cons b c bs cs).mp hbc with h2 | ⟨h2, h2r⟩
    · exact (charListLE_cons a c as cs).mpr (Or.inl (lt_trans h1 h2))
    · exact (charListLE_cons a c as cs).mpr (Or.inl (h2 ▸ h1))
    · exact (charListLE_cons a c as cs).mpr (Or.inl (h1 ▸ h2))
    · exact (charListLE_cons a c as cs).mpr
        (Or.inr ⟨h1.trans h2, charListLE_trans as bs cs h1r h2r⟩)

theorem keyLE_iff (a b : Nat × Int × List Char) :
    keyLE a b = true ↔
      a.1 < b.1 ∨ (a.1 = b.1 ∧
        (a.2.1 < b.2.1 ∨ (a.2.1 = b.2.1 ∧ charListLE a.2.2 b.2.2 = true))) := by
  simp [keyLE]

theorem keyLE_total (a b : Nat × Int × List Char) :
    keyLE a b = true ∨ keyLE b a = true := by
  rw [keyLE_iff, keyLE_iff]
  rcases lt_trichotomy a.1 b.1 with h | h | h
  · exact Or.inl (Or.inl h)
  · rcases lt_trichotomy a.2.1 b.2.1 with h' | h' | h'
    · exact Or.inl (Or.inr ⟨h, Or.inl h'⟩)
    · rcases charListLE_total a.2.2 b.2.2 with h'' | h''
      · exact Or.inl (Or.inr ⟨h, Or.inr ⟨h', h''⟩⟩)
      · exact Or.inr (Or.inr ⟨h.symm, Or.inr ⟨h'.symm, h''⟩⟩)
    · exact Or.inr (Or.inr ⟨h.symm, Or.inl h'⟩)
  · exact Or.inr (Or.inl h)

theorem keyLE_trans (a b c : Nat × Int × List Char)
    (hab : keyLE a b = true) (hbc : keyLE b c = true) : keyLE a c = true := by
  rw [keyLE_iff] at hab hbc ⊢
  rcases hab with h1 | ⟨h1, hab'⟩ <;> rcases hbc with h2 | ⟨h2, hbc'⟩
  · exact Or.inl (lt_trans h1 h2)
  · exact Or.inl (h2 ▸ h1)
  · exact Or.inl (h1 ▸ h2)
  · refine Or.inr ⟨h1.trans h2, ?_⟩
    rcases hab' with h1' | ⟨h1', hab''⟩ <;> rcases hbc' with h2' | ⟨h2', hbc''⟩
    · exact Or.inl (lt_trans h1' h2')
    · exact Or.inl (h2' ▸ h1')
    · exact Or.inl (h1' ▸ h2')
    · exact Or.inr ⟨h1'.trans h2', charListLE_trans _ _ _ hab'' hbc''⟩

instance : IsTotal Record tsGE :=
  ⟨fun x y => (keyLE_total (tsKey x) (tsKey y)).symm⟩

instance : IsTrans Record tsGE :=
  ⟨fun _ _ _ hxy hyz => keyLE_trans _ _ _ hyz hxy⟩

theorem mapM_ok_forall2 {α β : Type} {f : α → Except PyErr β} :
    ∀ {l : List α} {out : List β}, l.mapM f = .ok out →
      List.Forall₂ (fun a b => f a = .ok b) l out := by
  intro l
  induction l with
  | nil =>
    intro out h
    simp only [List.mapM_nil] at h
    cases h
    exact List.Forall₂.nil
  | cons a l ih =>
    intro out h
    rw [List.mapM_cons] at h
    cases hfa : f a with
    | error e => rw [hfa] at h; cases h
    | ok b =>
      rw [hfa] at h
      cases hml : l.mapM f with
      | error e => rw [hml] at h; cases h
      | ok bs =>
        rw [hml] at h
        cases h
        exact List.Forall₂.cons hfa (ih hml)

/-- Claim C6 (amended): `get_events` returns at most 10 strings; each is the
Formatter's output for the corresponding record of the 10 first (greatest-
timestamp) records of the store sorted by timestamp descending; the sort is
descending but non-strict — records with equal timestamp strings may both
appear, adjacent in unspecified relative order — and every record left out
has a timestamp sort key at most that of every record served. -/
theorem get_events_spec (store : Store) (out : List String)
    (h : get_events store = .ok out) :
    out.length ≤ 10 ∧
    List.Forall₂ (fun r s => format_event r = .ok s)
      ((sortedEvents store).take 10) out ∧
    List.Sorted tsGE (sortedEvents store) ∧
    (sortedEvents store).Perm store ∧
    (∀ q ∈ (sortedEvents store).take 10, ∀ r ∈ (sortedEvents store).drop 10,
      tsGE q r) := by
  unfold get_events at h
  have hf2 := mapM_ok_forall2 h
  have hsorted : List.Sorted tsGE (sortedEvents store) :=
    List.sorted_insertionSort tsGE store
  refine ⟨?_, hf2, hsorted, List.perm_insertionSort tsGE store, ?_⟩
  · rw [← hf2.length_eq]
    exact (List.length_take_le 10 (sortedEvents store)).trans (le_refl 10)
  · have hsp := hsorted
    rw [← List.take_append_drop 10 (sortedEvents store)] at hsp
    exact (List.pairwise_append.mp hsp).2.2

/-- A record stored at "a"-author with timestamp 2024-03-01, used to witness
and refute ordering claims about `get_events`. -/
def c6A : Record :=
  [("author", .str "a"), ("action", .str "PUSH"), ("to_branch", .str "m"),
   ("request_id", .str "x1"), ("timestamp", .str "2024-03-01T10:15:00Z")]

/-- A record with the later timestamp 2024-03-02. -/
def c6B : Record :=
  [("author", .str "b"), ("action", .str "PUSH"), ("to_branch", .str "m"),
   ("request_id", .str "x2"), ("timestamp", .str "2024-03-02T10:15:00Z")]

/-- A record with the same timestamp as `c6A` but a different
`request_id`. -/
def c6C : Record :=
  [("author", .str "c"), ("action", .str "PUSH"), ("to_branch", .str "m"),
   ("request_id", .str "x3"), ("timestamp", .str "2024-03-01T10:15:00Z")]

/-- Witness for C6 on a two-record store with distinct timestamps: the newer
record is served first. -/
theorem get_events_spec_witness :
    (["b pushed to m on 02 March 2024 - 10:15 AM UTC",
      "a pushed to m on 01 March 2024 - 10:15 AM UTC"] : List String).length
        ≤ 10 ∧
    List.Forall₂ (fun r s => format_event r = .ok s)
      ((sortedEvents [c6A, c6B]).take 10)
      ["b pushed to m on 02 March 2024 - 10:15 AM UTC",
       "a pushed to m on 01 March 2024 - 10:15 AM UTC"] ∧
    List.Sorted tsGE (sortedEvents [c6A, c6B]) ∧
    (sortedEvents [c6A, c6B]).Perm [c6A, c6B] ∧
    (∀ q ∈ (sortedEvents [c6A, c6B]).take 10,
      ∀ r ∈ (sortedEvents [c6A, c6B]).drop 10, tsGE q r) :=
  get_events_spec [c6A, c6B] _ rfl

/-- Counterexample to C6 as stated: with two stored records sharing the
timestamp string, `get_events` serves both, so the output is ordered
non-strictly, not strictly, by timestamp descending. -/
theorem get_events_tie_not_strict :
    get_events [c6A, c6C] = .ok
      ["a pushed to m on 01 March 2024 - 10:15 AM UTC",
       "c pushed to m on 01 March 2024 - 10:15 AM UTC"] ∧
    (sortedEvents [c6A, c6C]).take 10 = [c6A, c6C] ∧
    tsKey c6A = tsKey c6C ∧
    ¬ ((sortedEvents [c6A, c6C]).take 10).Pairwise
        (fun r q => tsGE r q ∧ ¬ tsGE q r) := by
  refine ⟨rfl, rfl, rfl, ?_⟩
  intro hp
  rw [show (sortedEvents [c6A, c6C]).take 10 = [c6A, c6C] from rfl] at hp
  have hrel := (List.pairwise_cons.mp hp).1 c6C (List.mem_cons_self c6C [])
  exact hrel.2 (by decide)
